import Mathlib

/-!
Formal model of the pose geometry transform module
(`apps/web/src/utils/poseUtils.ts`) of the PoseKit repository.

JavaScript numbers are modelled as real numbers (`ℝ`), so all arithmetic
is exact. Array indexing that would dereference `undefined` in JavaScript
(and hence throw a `TypeError`) is modelled by `Option`: a transform that
would throw returns `none`. All functions here are pure, mirroring the
module's pure-function style; "calling twice yields the same result" and
"does not modify its inputs" are inherent to the embedding.
-/

noncomputable section

/-- A labelled 2D point with a detector confidence, from the `Keypoint`
interface of `poseUtils.ts`. -/
structure Keypoint where
  x : ℝ
  y : ℝ
  confidence : ℝ
  label : String

/-- The `PoseData` interface of `poseUtils.ts`: an ordered sequence of
keypoints, skeleton connectivity as index pairs, and the frame size. -/
structure PoseData where
  keypoints : List Keypoint
  skeleton : List (Nat × Nat)
  width : ℝ
  height : ℝ

/-! Standard COCO pose keypoint indices (`COCO_KEYPOINTS` in the source). -/

def COCO_KEYPOINTS.NOSE : Nat := 0

def COCO_KEYPOINTS.LEFT_EYE : Nat := 1

def COCO_KEYPOINTS.RIGHT_EYE : Nat := 2

def COCO_KEYPOINTS.LEFT_EAR : Nat := 3

def COCO_KEYPOINTS.RIGHT_EAR : Nat := 4

def COCO_KEYPOINTS.LEFT_SHOULDER : Nat := 5

def COCO_KEYPOINTS.RIGHT_SHOULDER : Nat := 6

def COCO_KEYPOINTS.LEFT_ELBOW : Nat := 7

def COCO_KEYPOINTS.RIGHT_ELBOW : Nat := 8

def COCO_KEYPOINTS.LEFT_WRIST : Nat := 9

def COCO_KEYPOINTS.RIGHT_WRIST : Nat := 10

def COCO_KEYPOINTS.LEFT_HIP : Nat := 11

def COCO_KEYPOINTS.RIGHT_HIP : Nat := 12

def COCO_KEYPOINTS.LEFT_KNEE : Nat := 13

def COCO_KEYPOINTS.RIGHT_KNEE : Nat := 14

def COCO_KEYPOINTS.LEFT_ANKLE : Nat := 15

def COCO_KEYPOINTS.RIGHT_ANKLE : Nat := 16

/-- The fixed mirror mapping for left-right keypoints (`MIRROR_MAPPING`
in the source, a `Map` from index to partner index). -/
def MIRROR_MAPPING : List (Nat × Nat) :=
  [(COCO_KEYPOINTS.LEFT_EYE, COCO_KEYPOINTS.RIGHT_EYE),
   (COCO_KEYPOINTS.RIGHT_EYE, COCO_KEYPOINTS.LEFT_EYE),
   (COCO_KEYPOINTS.LEFT_EAR, COCO_KEYPOINTS.RIGHT_EAR),
   (COCO_KEYPOINTS.RIGHT_EAR, COCO_KEYPOINTS.LEFT_EAR),
   (COCO_KEYPOINTS.LEFT_SHOULDER, COCO_KEYPOINTS.RIGHT_SHOULDER),
   (COCO_KEYPOINTS.RIGHT_SHOULDER, COCO_KEYPOINTS.LEFT_SHOULDER),
   (COCO_KEYPOINTS.LEFT_ELBOW, COCO_KEYPOINTS.RIGHT_ELBOW),
   (COCO_KEYPOINTS.RIGHT_ELBOW, COCO_KEYPOINTS.LEFT_ELBOW),
   (COCO_KEYPOINTS.LEFT_WRIST, COCO_KEYPOINTS.RIGHT_WRIST),
   (COCO_KEYPOINTS.RIGHT_WRIST, COCO_KEYPOINTS.LEFT_WRIST),
   (COCO_KEYPOINTS.LEFT_HIP, COCO_KEYPOINTS.RIGHT_HIP),
   (COCO_KEYPOINTS.RIGHT_HIP, COCO_KEYPOINTS.LEFT_HIP),
   (COCO_KEYPOINTS.LEFT_KNEE, COCO_KEYPOINTS.RIGHT_KNEE),
   (COCO_KEYPOINTS.RIGHT_KNEE, COCO_KEYPOINTS.LEFT_KNEE),
   (COCO_KEYPOINTS.LEFT_ANKLE, COCO_KEYPOINTS.RIGHT_ANKLE),
   (COCO_KEYPOINTS.RIGHT_ANKLE, COCO_KEYPOINTS.LEFT_ANKLE)]

/-- One step of the `keypoints.map((keypoint, index) => ...)` body of
`mirrorPose`. When the mirror partner index is out of range the
JavaScript code dereferences `undefined` and throws; that case is
`none` here. -/
def mirrorOne (poseData : PoseData) (index : Nat) (keypoint : Keypoint) : Option Keypoint :=
  match MIRROR_MAPPING.lookup index with
  | some mirroredIndex =>
    (poseData.keypoints[mirroredIndex]?).map fun sourceKeypoint =>
      { sourceKeypoint with x := poseData.width - sourceKeypoint.x, label := keypoint.label }
  | none => some { keypoint with x := poseData.width - keypoint.x }

/-- The indexed map over the keypoint list performed by `mirrorPose`. -/
def mirrorKeypoints (poseData : PoseData) : Nat → List Keypoint → Option (List Keypoint)
  | _, [] => some []
  | i, keypoint :: rest =>
    (mirrorOne poseData i keypoint).bind fun k =>
      (mirrorKeypoints poseData (i + 1) rest).map fun ks => k :: ks

/-- `mirrorPose` from `poseUtils.ts`: mirror a pose horizontally.
Keypoint values are taken from the mirror-partner slot (or the slot
itself when unmapped), the `x` coordinate is flipped to `width - x`, and
each output slot keeps its original label; skeleton, width and height
are unchanged. -/
def mirrorPose (poseData : PoseData) : Option PoseData :=
  (mirrorKeypoints poseData 0 poseData.keypoints).map fun mirroredKeypoints =>
    { keypoints := mirroredKeypoints, skeleton := poseData.skeleton,
      width := poseData.width, height := poseData.height }

/-- The mirror-partner map described by the specification: the fixed
symmetric table for paired landmarks, unmapped indices self-paired. -/
def mirrorPartner (i : Nat) : Nat := (MIRROR_MAPPING.lookup i).getD i

/-- The mirror transform as described by the specification (§4.1): the
output keypoint at position `i` takes the source keypoint at
`mirrorPartner i` with `x` replaced by `width - x`, keeps the position's
original label, and leaves `y`, `confidence`, `skeleton`, `width` and
`height` unchanged. Stated with total indexing, which the spec's fixed
17-point layout guarantees is in range. -/
def mirrorPoseSpec (p : PoseData) : PoseData :=
  { keypoints := p.keypoints.enum.map fun pr =>
      let src := p.keypoints.getD (mirrorPartner pr.1) pr.2
      { x := p.width - src.x, y := src.y, confidence := src.confidence, label := pr.2.label },
    skeleton := p.skeleton, width := p.width, height := p.height }

/-- Every partner index in the mirror table is a valid COCO slot. -/
lemma mirror_partner_lt {i j : Nat} (h : MIRROR_MAPPING.lookup i = some j) : j < 17 := by
  rw [List.lookup_eq_some_iff] at h
  obtain ⟨l₁, l₂, hl, -⟩ := h
  have hmem : (i, j) ∈ MIRROR_MAPPING := by
    rw [hl]; exact List.mem_append_right _ (List.mem_cons_self _ _)
  have hall : ∀ p ∈ MIRROR_MAPPING, p.2 < 17 := by decide
  exact hall _ hmem

/-- The total description of one mirrored keypoint, used to relate the
code to the spec-side definition. -/
def mirrorTarget (p : PoseData) (i : Nat) (kp : Keypoint) : Keypoint :=
  match MIRROR_MAPPING.lookup i with
  | some j =>
    let src := p.keypoints.getD j kp
    { x := p.width - src.x, y := src.y, confidence := src.confidence, label := kp.label }
  | none => { x := p.width - kp.x, y := kp.y, confidence := kp.confidence, label := kp.label }

lemma mirrorOne_eq_some (p : PoseData) (h17 : p.keypoints.length = 17)
    (i : Nat) (kp : Keypoint) :
    mirrorOne p i kp = some (mirrorTarget p i kp) := by
  unfold mirrorOne mirrorTarget
  cases hl : MIRROR_MAPPING.lookup i with
  | none => rfl
  | some j =>
    have hj : j < p.keypoints.length := by rw [h17]; exact mirror_partner_lt hl
    simp [List.getElem?_eq_getElem hj, List.getD_eq_getElem _ _ hj]

lemma mirrorKeypoints_eq_some (p : PoseData) (h17 : p.keypoints.length = 17) :
    ∀ (l : List Keypoint) (i : Nat),
      mirrorKeypoints p i l =
        some ((l.enumFrom i).map fun pr => mirrorTarget p pr.1 pr.2) := by
  intro l
  induction l with
  | nil => intro i; rfl
  | cons kp rest ih =>
    intro i
    simp only [mirrorKeypoints, mirrorOne_eq_some p h17, Option.some_bind, ih (i + 1),
      List.enumFrom, List.map_cons]
    rfl

/-- For an index/value pair actually coming from the keypoint list, the
code's mirrored keypoint agrees with the spec-side description. -/
lemma mirrorTarget_eq_spec (p : PoseData) {pr : Nat × Keypoint}
    (hmem : pr ∈ p.keypoints.enum) :
    mirrorTarget p pr.1 pr.2 =
      (let src := p.keypoints.getD (mirrorPartner pr.1) pr.2
       { x := p.width - src.x, y := src.y, confidence := src.confidence,
         label := pr.2.label } : Keypoint) := by
  obtain ⟨i, kp⟩ := pr
  obtain ⟨-, hlt, hv⟩ := List.mem_enumFrom hmem
  have hlt2 : i < p.keypoints.length := by simpa using hlt
  simp only [Nat.sub_zero] at hv
  unfold mirrorTarget mirrorPartner
  cases hl : MIRROR_MAPPING.lookup i with
  | none =>
    have hkp : p.keypoints[i]? = some kp := by
      rw [List.getElem?_eq_getElem hlt2]; exact congrArg some hv.symm
    simp [hkp]
  | some j => simp

/-- Under the 17-point layout the code's `mirrorPose` succeeds and
produces exactly the spec-side mirrored pose. -/
lemma mirrorPose_eq_spec (p : PoseData) (h17 : p.keypoints.length = 17) :
    mirrorPose p = some (mirrorPoseSpec p) := by
  unfold mirrorPose mirrorPoseSpec
  rw [mirrorKeypoints_eq_some p h17 p.keypoints 0, Option.map_some']
  have hmap : (p.keypoints.enum.map fun pr => mirrorTarget p pr.1 pr.2) =
      p.keypoints.enum.map fun pr =>
        let src := p.keypoints.getD (mirrorPartner pr.1) pr.2
        { x := p.width - src.x, y := src.y, confidence := src.confidence,
          label := pr.2.label } :=
    List.map_congr_left fun pr hpr => mirrorTarget_eq_spec p hpr
  simp only [show List.enumFrom 0 p.keypoints = p.keypoints.enum from rfl, hmap]

attribute [ext] Keypoint PoseData

lemma mirrorPoseSpec_length (p : PoseData) :
    (mirrorPoseSpec p).keypoints.length = p.keypoints.length := by
  simp [mirrorPoseSpec]

lemma mirrorPoseSpec_getElem (p : PoseData) {n : Nat}
    (hn : n < p.keypoints.length) (hm : mirrorPartner n < p.keypoints.length)
    (hn2 : n < (mirrorPoseSpec p).keypoints.length) :
    (mirrorPoseSpec p).keypoints[n] =
      { x := p.width - p.keypoints[mirrorPartner n].x,
        y := p.keypoints[mirrorPartner n].y,
        confidence := p.keypoints[mirrorPartner n].confidence,
        label := p.keypoints[n].label } := by
  simp [mirrorPoseSpec, List.getElem_map, List.getElem_enum, List.getD_eq_getElem _ _ hm,
    List.getElem?_eq_getElem hm]

/-- The mirror-partner table is an involution on the 17 COCO slots. -/
lemma mirrorPartner_involutive :
    ∀ n, n < 17 → mirrorPartner n < 17 ∧ mirrorPartner (mirrorPartner n) = n := by decide

lemma mirrorPoseSpec_involutive (p : PoseData) (h17 : p.keypoints.length = 17) :
    mirrorPoseSpec (mirrorPoseSpec p) = p := by
  have hlen1 : (mirrorPoseSpec p).keypoints.length = p.keypoints.length :=
    mirrorPoseSpec_length p
  have hk : (mirrorPoseSpec (mirrorPoseSpec p)).keypoints = p.keypoints := by
    apply List.ext_getElem (by rw [mirrorPoseSpec_length, mirrorPoseSpec_length])
    intro n h₁ h₂
    have hn17 : n < 17 := by rw [← h17]; exact h₂
    obtain ⟨hm1, hm2⟩ := mirrorPartner_involutive n hn17
    have hb0 : n < (mirrorPoseSpec p).keypoints.length := by rw [hlen1]; exact h₂
    have hb1 : mirrorPartner n < (mirrorPoseSpec p).keypoints.length := by
      rw [hlen1, h17]; exact hm1
    have hb2 : mirrorPartner n < p.keypoints.length := by rw [h17]; exact hm1
    have hb3 : mirrorPartner (mirrorPartner n) < p.keypoints.length := by
      rw [h17, hm2]; exact hn17
    rw [mirrorPoseSpec_getElem (mirrorPoseSpec p) hb0 hb1 h₁]
    rw [mirrorPoseSpec_getElem p hb2 hb3 hb1]
    rw [mirrorPoseSpec_getElem p h₂ hb2 hb0]
    simp only [hm2, show (mirrorPoseSpec p).width = p.width from rfl]
    ext <;> simp [sub_sub_cancel]
  ext1
  · exact hk
  · rfl
  · rfl
  · rfl

/-- A concrete 17-keypoint COCO pose on a 768x768 frame with the left
shoulder at (300,400) and the right shoulder at (468,400). -/
def kpLS : Keypoint := { x := 300, y := 400, confidence := 1, label := "LEFT_SHOULDER" }

def kpRS : Keypoint := { x := 468, y := 400, confidence := 1, label := "RIGHT_SHOULDER" }

def kpP : Keypoint := { x := 100, y := 200, confidence := 1, label := "P" }

def P17 : PoseData :=
  { keypoints := [kpP, kpP, kpP, kpP, kpP, kpLS, kpRS, kpP, kpP, kpP, kpP, kpP,
      kpP, kpP, kpP, kpP, kpP],
    skeleton := [(5, 6)], width := 768, height := 768 }

/-- C1: For every `PoseData` (fixed 17-point COCO layout per the data
model), `mirrorPose` produces the output keypoint at each position `i`
from the source keypoint at the mirror partner of `i` (the source
keypoint at `i` itself when no partner is defined) with `x` replaced by
`width - x`, while each position keeps its original label and width,
height and skeleton are unchanged (this is `mirrorPoseSpec`); in
particular a 768-wide pose with the left shoulder at (300,400) and the
right shoulder at (468,400) is mirrored to (300,400) in the
left-shoulder slot and (468,400) in the right-shoulder slot. -/
theorem mirrorPose_matches_spec :
    (∀ p : PoseData, p.keypoints.length = 17 → mirrorPose p = some (mirrorPoseSpec p)) ∧
    (∀ (p : PoseData) (kp5 kp6 : Keypoint), p.keypoints.length = 17 → p.width = 768 →
      p.keypoints[5]? = some kp5 → p.keypoints[6]? = some kp6 →
      kp5.x = 300 → kp5.y = 400 → kp6.x = 468 → kp6.y = 400 →
      ((mirrorPose p).map fun q =>
          ((q.keypoints[5]?).map fun kp => (kp.x, kp.y),
           (q.keypoints[6]?).map fun kp => (kp.x, kp.y))) =
        some (some (300, 400), some (468, 400))) := by
  constructor
  · exact fun p h17 => mirrorPose_eq_spec p h17
  · intro p kp5 kp6 h17 hw h5 h6 hx5 hy5 hx6 hy6
    rw [mirrorPose_eq_spec p h17, Option.map_some']
    have h5lt : (5 : Nat) < p.keypoints.length := by rw [h17]; norm_num
    have h6lt : (6 : Nat) < p.keypoints.length := by rw [h17]; norm_num
    have e5 : p.keypoints[5] = kp5 := by
      rw [List.getElem?_eq_getElem h5lt] at h5; exact Option.some.inj h5
    have e6 : p.keypoints[6] = kp6 := by
      rw [List.getElem?_eq_getElem h6lt] at h6; exact Option.some.inj h6
    have hb5 : (5 : Nat) < (mirrorPoseSpec p).keypoints.length := by
      rw [mirrorPoseSpec_length]; exact h5lt
    have hb6 : (6 : Nat) < (mirrorPoseSpec p).keypoints.length := by
      rw [mirrorPoseSpec_length]; exact h6lt
    rw [List.getElem?_eq_getElem hb5, List.getElem?_eq_getElem hb6]
    rw [mirrorPoseSpec_getElem p h5lt (by rw [show mirrorPartner 5 = 6 from rfl]; exact h6lt) hb5]
    rw [mirrorPoseSpec_getElem p h6lt (by rw [show mirrorPartner 6 = 5 from rfl]; exact h5lt) hb6]
    simp only [show mirrorPartner 5 = 6 from rfl, show mirrorPartner 6 = 5 from rfl]
    rw [e5, e6, hw, hx5, hy5, hx6, hy6]
    norm_num

/-- Witness for C1 at the concrete pose `P17`. -/
theorem mirrorPose_matches_spec_witness :
    mirrorPose P17 = some (mirrorPoseSpec P17) ∧
    ((mirrorPose P17).map fun q =>
        ((q.keypoints[5]?).map fun kp => (kp.x, kp.y),
         (q.keypoints[6]?).map fun kp => (kp.x, kp.y))) =
      some (some (300, 400), some (468, 400)) :=
  ⟨mirrorPose_matches_spec.1 P17 rfl,
   mirrorPose_matches_spec.2 P17 kpLS kpRS rfl rfl rfl rfl rfl rfl rfl rfl⟩

/-- C3: For every valid `PoseData` (17-point COCO layout), applying
`mirrorPose` twice reproduces the pose exactly, in particular every
keypoint's coordinates. -/
theorem mirrorPose_involutive :
    ∀ p : PoseData, p.keypoints.length = 17 → (mirrorPose p).bind mirrorPose = some p := by
  intro p h17
  have hlen : (mirrorPoseSpec p).keypoints.length = 17 := by
    rw [mirrorPoseSpec_length]; exact h17
  rw [mirrorPose_eq_spec p h17, Option.some_bind, mirrorPose_eq_spec _ hlen,
    mirrorPoseSpec_involutive p h17]

/-- Witness for C3 at the concrete pose `P17`. -/
theorem mirrorPose_involutive_witness :
    (mirrorPose P17).bind mirrorPose = some P17 :=
  mirrorPose_involutive P17 rfl

/-- The loop body of `calculatePoseSimilarity`: when both keypoints of
the pair have confidence above 0.5, accumulate the Euclidean distance
normalized by the diagonal of the FIRST pose's frame, and count the
point as valid; otherwise skip the pair. -/
def simStep (pose1W pose1H : ℝ) (acc : ℝ × ℕ) (pr : Keypoint × Keypoint) : ℝ × ℕ :=
  if pr.1.confidence > 0.5 ∧ pr.2.confidence > 0.5 then
    (acc.1 +
      Real.sqrt ((pr.1.x - pr.2.x) * (pr.1.x - pr.2.x) + (pr.1.y - pr.2.y) * (pr.1.y - pr.2.y)) /
        Real.sqrt (pose1W * pose1W + pose1H * pose1H),
     acc.2 + 1)
  else acc

/-- The `(totalDistance, validPoints)` pair accumulated by the loop of
`calculatePoseSimilarity`. -/
def similarityTotals (pose1W pose1H : ℝ) (pairs : List (Keypoint × Keypoint)) : ℝ × ℕ :=
  pairs.foldl (simStep pose1W pose1H) (0, 0)

/-- `calculatePoseSimilarity` from `poseUtils.ts`: returns `0` on
mismatched keypoint counts or when no pair qualifies, otherwise
`max 0 (1 - avgDistance * 5)`. -/
def calculatePoseSimilarity (pose1 pose2 : PoseData) : ℝ :=
  if pose1.keypoints.length ≠ pose2.keypoints.length then 0
  else
    if (similarityTotals pose1.width pose1.height (pose1.keypoints.zip pose2.keypoints)).2 = 0
    then 0
    else
      max 0
        (1 - (similarityTotals pose1.width pose1.height (pose1.keypoints.zip pose2.keypoints)).1 /
          ((similarityTotals pose1.width pose1.height (pose1.keypoints.zip pose2.keypoints)).2 : ℝ) * 5)

lemma simStep_swap (w hgt : ℝ) (acc : ℝ × ℕ) (pr : Keypoint × Keypoint) :
    simStep w hgt acc pr.swap = simStep w hgt acc pr := by
  obtain ⟨a, b⟩ := pr
  simp only [Prod.swap_prod_mk]
  unfold simStep
  by_cases hc : a.confidence > 0.5 ∧ b.confidence > 0.5
  · rw [if_pos (And.intro hc.2 hc.1), if_pos hc]
    have harg : (b.x - a.x) * (b.x - a.x) + (b.y - a.y) * (b.y - a.y) =
        (a.x - b.x) * (a.x - b.x) + (a.y - b.y) * (a.y - b.y) := by ring
    rw [harg]
  · rw [if_neg (fun hcc => hc ⟨hcc.2, hcc.1⟩), if_neg hc]

lemma foldl_simStep_swap (w hgt : ℝ) (l : List (Keypoint × Keypoint)) (acc : ℝ × ℕ) :
    (l.map Prod.swap).foldl (simStep w hgt) acc = l.foldl (simStep w hgt) acc := by
  induction l generalizing acc with
  | nil => rfl
  | cons pr t ih => simp only [List.map_cons, List.foldl_cons, simStep_swap, ih]

lemma similarityTotals_swap (p q : PoseData) (hw : p.width = q.width)
    (hh : p.height = q.height) :
    similarityTotals q.width q.height (q.keypoints.zip p.keypoints) =
      similarityTotals p.width p.height (p.keypoints.zip q.keypoints) := by
  unfold similarityTotals
  have hzip : q.keypoints.zip p.keypoints = (p.keypoints.zip q.keypoints).map Prod.swap :=
    (List.zip_swap p.keypoints q.keypoints).symm
  rw [hzip, foldl_simStep_swap, ← hw, ← hh]

/-- Amended C2: the similarity score is symmetric whenever the two poses
have the same frame dimensions (in general the score normalizes by the
first pose's frame diagonal, so it is not symmetric). -/
theorem calculatePoseSimilarity_symm_of_dims (p q : PoseData)
    (hw : p.width = q.width) (hh : p.height = q.height) :
    calculatePoseSimilarity p q = calculatePoseSimilarity q p := by
  unfold calculatePoseSimilarity
  rw [similarityTotals_swap p q hw hh]
  exact if_congr ne_comm rfl rfl

/-- A single high-confidence keypoint at the origin. -/
def kpA : Keypoint := { x := 0, y := 0, confidence := 1, label := "A" }

def kpB : Keypoint := { x := 1, y := 0, confidence := 1, label := "B" }

def kpLow : Keypoint := { x := 2, y := 3, confidence := 0.3, label := "L" }

/-- A one-keypoint pose on a 3x4 frame (diagonal 5). -/
def PA : PoseData := { keypoints := [kpA], skeleton := [], width := 3, height := 4 }

/-- A one-keypoint pose on a 6x8 frame (diagonal 10). -/
def PB : PoseData := { keypoints := [kpB], skeleton := [], width := 6, height := 8 }

/-- A one-keypoint pose whose only keypoint has low confidence. -/
def PLow : PoseData := { keypoints := [kpLow], skeleton := [], width := 3, height := 4 }

/-- A two-keypoint pose, used for the mismatched-length cases. -/
def PC : PoseData := { keypoints := [kpA, kpA], skeleton := [], width := 3, height := 4 }

lemma sqrt_twentyfive : Real.sqrt 25 = 5 := by
  rw [show (25 : ℝ) = 5 ^ 2 by norm_num]
  exact Real.sqrt_sq (by norm_num)

lemma sqrt_hundred : Real.sqrt 100 = 10 := by
  rw [show (100 : ℝ) = 10 ^ 2 by norm_num]
  exact Real.sqrt_sq (by norm_num)

lemma simPAPB : calculatePoseSimilarity PA PB = 0 := by
  unfold calculatePoseSimilarity similarityTotals
  norm_num [PA, PB, kpA, kpB, simStep, Real.sqrt_one, sqrt_twentyfive]

lemma simPBPA : calculatePoseSimilarity PB PA = 1 / 2 := by
  unfold calculatePoseSimilarity similarityTotals
  norm_num [PA, PB, kpA, kpB, simStep, Real.sqrt_one, sqrt_hundred]

/-- C2 counterexample: the similarity score normalizes by the first
pose's frame diagonal, so for poses with different frame dimensions the
score is not symmetric. -/
theorem calculatePoseSimilarity_not_symmetric :
    calculatePoseSimilarity PA PB ≠ calculatePoseSimilarity PB PA := by
  rw [simPAPB, simPBPA]; norm_num

/-- Witness for the amended C2 at two concrete equal-dimension poses. -/
theorem calculatePoseSimilarity_symm_of_dims_witness :
    calculatePoseSimilarity PA PLow = calculatePoseSimilarity PLow PA :=
  calculatePoseSimilarity_symm_of_dims PA PLow rfl rfl

lemma foldl_simStep_fst_nonneg (w hgt : ℝ) :
    ∀ (l : List (Keypoint × Keypoint)) (acc : ℝ × ℕ), 0 ≤ acc.1 →
      0 ≤ (l.foldl (simStep w hgt) acc).1 := by
  intro l
  induction l with
  | nil => exact fun acc hacc => hacc
  | cons pr t ih =>
    intro acc hacc
    simp only [List.foldl_cons]
    apply ih
    unfold simStep
    split
    · exact add_nonneg hacc (div_nonneg (Real.sqrt_nonneg _) (Real.sqrt_nonneg _))
    · exact hacc

/-- C4: For every two `PoseData` inputs, the similarity score lies in
the closed interval `[0, 1]`. -/
theorem calculatePoseSimilarity_bounds (p q : PoseData) :
    0 ≤ calculatePoseSimilarity p q ∧ calculatePoseSimilarity p q ≤ 1 := by
  unfold calculatePoseSimilarity
  split
  · norm_num
  · split
    · norm_num
    · constructor
      · exact le_max_left 0 _
      · apply max_le (by norm_num)
        have htot : 0 ≤ (similarityTotals p.width p.height (p.keypoints.zip q.keypoints)).1 :=
          foldl_simStep_fst_nonneg _ _ _ (0, 0) le_rfl
        have hmul : 0 ≤ (similarityTotals p.width p.height (p.keypoints.zip q.keypoints)).1 /
            ((similarityTotals p.width p.height (p.keypoints.zip q.keypoints)).2 : ℝ) * 5 :=
          mul_nonneg (div_nonneg htot (Nat.cast_nonneg _)) (by norm_num)
        linarith

lemma foldl_simStep_skip_all (w hgt : ℝ) :
    ∀ (l : List (Keypoint × Keypoint)),
      (∀ pr ∈ l, ¬(pr.1.confidence > 0.5 ∧ pr.2.confidence > 0.5)) →
      ∀ acc, l.foldl (simStep w hgt) acc = acc := by
  intro l
  induction l with
  | nil => exact fun _ acc => rfl
  | cons pr t ih =>
    intro hno acc
    simp only [List.foldl_cons]
    rw [show simStep w hgt acc pr = acc from
      if_neg (hno pr (List.mem_cons_self pr t))]
    exact ih (fun x hx => hno x (List.mem_cons_of_mem pr hx)) acc

/-- C5: the similarity score is `0` (with no division performed) both
when the two poses have different keypoint counts — the length check
short-circuits before any pair is compared — and when no index has both
keypoints' confidence strictly above 0.5, in which case `validPoints`
stays `0` and the guarded early return fires. -/
theorem calculatePoseSimilarity_zero_cases :
    (∀ p q : PoseData, p.keypoints.length ≠ q.keypoints.length →
      calculatePoseSimilarity p q = 0) ∧
    (∀ p q : PoseData,
      (∀ pr ∈ p.keypoints.zip q.keypoints,
        ¬(pr.1.confidence > 0.5 ∧ pr.2.confidence > 0.5)) →
      calculatePoseSimilarity p q = 0) := by
  constructor
  · intro p q hne
    unfold calculatePoseSimilarity
    rw [if_pos hne]
  · intro p q hno
    unfold calculatePoseSimilarity
    split
    · rfl
    · rw [show similarityTotals p.width p.height (p.keypoints.zip q.keypoints) = (0, 0) from
        foldl_simStep_skip_all _ _ _ hno (0, 0)]
      norm_num

/-- Witness for C5: a length mismatch and an all-low-confidence pair. -/
theorem calculatePoseSimilarity_zero_cases_witness :
    calculatePoseSimilarity PA PC = 0 ∧ calculatePoseSimilarity PA PLow = 0 :=
  ⟨calculatePoseSimilarity_zero_cases.1 PA PC (by decide),
   calculatePoseSimilarity_zero_cases.2 PA PLow (by
    intro pr hpr
    have : pr = (kpA, kpLow) := by
      simpa [PA, PLow, List.zip] using hpr
    rw [this]
    norm_num [kpA, kpLow])⟩

/-- `scalePose` from `poseUtils.ts`: multiply each keypoint's `x` by
`scaleX = newWidth / width` and `y` by `scaleY = newHeight / height`,
updating the frame to the new size; skeleton and confidence unchanged.
(JavaScript division by a zero dimension yields Infinity/NaN; this
real-number model makes it `0`. No claim exercises a zero frame.) -/
def scalePose (poseData : PoseData) (newWidth newHeight : ℝ) : PoseData :=
  { keypoints := poseData.keypoints.map fun keypoint =>
      { keypoint with
        x := keypoint.x * (newWidth / poseData.width),
        y := keypoint.y * (newHeight / poseData.height) },
    skeleton := poseData.skeleton, width := newWidth, height := newHeight }

/-- `rotatePose` from `poseUtils.ts`: rotate every keypoint about the
image center `(width/2, height/2)` by `angle` degrees. -/
def rotatePose (poseData : PoseData) (angle : ℝ) : PoseData :=
  { keypoints := poseData.keypoints.map fun keypoint =>
      { keypoint with
        x := (keypoint.x - poseData.width / 2) * Real.cos (angle * Real.pi / 180) -
            (keypoint.y - poseData.height / 2) * Real.sin (angle * Real.pi / 180) +
            poseData.width / 2,
        y := (keypoint.x - poseData.width / 2) * Real.sin (angle * Real.pi / 180) +
            (keypoint.y - poseData.height / 2) * Real.cos (angle * Real.pi / 180) +
            poseData.height / 2 },
    skeleton := poseData.skeleton, width := poseData.width, height := poseData.height }

/-- The optional-fields configuration object accepted by
`transformPose`. -/
structure Transformations where
  mirror : Option Bool
  scale : Option (ℝ × ℝ)
  rotation : Option ℝ

/-- `transformPose` from `poseUtils.ts`. JavaScript truthiness governs
each step: the mirror step runs only when the flag is literally `true`,
the scale step runs whenever a scale object is present, and the
rotation step is skipped both when the field is absent and when the
angle is `0` (the number `0` is falsy). -/
def transformPose (poseData : PoseData) (transformations : Transformations) :
    Option PoseData :=
  (if transformations.mirror = some true then mirrorPose poseData else some poseData).bind
    fun result1 =>
      let result2 :=
        match transformations.scale with
        | some s => scalePose result1 s.1 s.2
        | none => result1
      let result3 :=
        match transformations.rotation with
        | some angle => if angle = 0 then result2 else rotatePose result2 angle
        | none => result2
      some result3

/-- The sequential composition described by the specification (§4.4):
apply `mirrorPose` first when mirroring is requested, then `scalePose`
to the mirrored result when a scale is requested, then `rotatePose` to
the scaled result when a rotation is requested; omitted steps are
no-ops. -/
def transformPoseSeq (poseData : PoseData) (transformations : Transformations) :
    Option PoseData :=
  (if transformations.mirror = some true then mirrorPose poseData else some poseData).bind
    fun result1 =>
      let result2 :=
        match transformations.scale with
        | some s => scalePose result1 s.1 s.2
        | none => result1
      let result3 :=
        match transformations.rotation with
        | some angle => rotatePose result2 angle
        | none => result2
      some result3

lemma rotatePose_zero (p : PoseData) : rotatePose p 0 = p := by
  unfold rotatePose
  have hc : Real.cos (0 * Real.pi / 180) = 1 := by
    rw [show (0 : ℝ) * Real.pi / 180 = 0 by ring, Real.cos_zero]
  have hs : Real.sin (0 * Real.pi / 180) = 0 := by
    rw [show (0 : ℝ) * Real.pi / 180 = 0 by ring, Real.sin_zero]
  ext1
  · show p.keypoints.map _ = p.keypoints
    have hkp : ∀ kp ∈ p.keypoints,
        ({ kp with
          x := (kp.x - p.width / 2) * Real.cos (0 * Real.pi / 180) -
              (kp.y - p.height / 2) * Real.sin (0 * Real.pi / 180) + p.width / 2,
          y := (kp.x - p.width / 2) * Real.sin (0 * Real.pi / 180) +
              (kp.y - p.height / 2) * Real.cos (0 * Real.pi / 180) + p.height / 2 } :
          Keypoint) = id kp := by
      intro kp hk
      ext <;> simp [hc, hs]
    rw [List.map_congr_left hkp, List.map_id]
  · rfl
  · rfl
  · rfl

/-- C7: `transformPose` coincides, for every pose and configuration,
with the sequential composition that mirrors first (when requested),
then scales the mirrored result, then rotates the scaled result, with
omitted steps as no-ops; the code's skipping of a zero rotation angle
(JavaScript falsiness of `0`) coincides with rotating by 0 degrees.
With all three fields omitted the input pose is returned unchanged. -/
theorem transformPose_sequential :
    (∀ (p : PoseData) (t : Transformations), transformPose p t = transformPoseSeq p t) ∧
    (∀ p : PoseData, transformPose p ⟨none, none, none⟩ = some p) := by
  constructor
  · intro p t
    unfold transformPose transformPoseSeq
    cases hrot : t.rotation with
    | none => rfl
    | some angle =>
      by_cases ha : angle = 0
      · subst ha
        congr 1
        funext result1
        simp [rotatePose_zero]
      · congr 1
        funext result1
        simp only [if_neg ha]
  · intro p
    rfl

/-- A candidate pose carrying an opaque identifier, the
`PoseData & \x7b id: string \x7d` intersection type of `findSimilarPoses`. -/
structure IdPose where
  pose : PoseData
  id : String

/-- One `\x7b pose, similarity \x7d` result entry of `findSimilarPoses`. -/
structure SimilarItem where
  pose : IdPose
  similarity : ℝ

/-- The comparison used by the code's `sort((a, b) => b.similarity -
a.similarity)`: `a` may come at or before `b` when `b.similarity ≤
a.similarity`. -/
def simLE (a b : SimilarItem) : Bool := decide (b.similarity ≤ a.similarity)

/-- `findSimilarPoses` from `poseUtils.ts`: score every candidate
against the target, keep the ones at or above the threshold, sort
descending by similarity and truncate. JavaScript's `Array.prototype.sort`
is a stable sort (ECMA-262), modelled by the stable `List.mergeSort`. -/
def findSimilarPoses (targetPose : PoseData) (poses : List IdPose)
    (threshold : ℝ) (maxResults : ℕ) : List SimilarItem :=
  (((poses.map fun pose =>
        SimilarItem.mk pose (calculatePoseSimilarity targetPose pose.pose)).filter
      fun item => decide (threshold ≤ item.similarity)).mergeSort simLE).take maxResults

/-- Stable descending insertion, from the specification's words: a new
entry goes after every already-placed entry scoring at least as much
(ties break by input order), before the first strictly-lower score. -/
def insertBySimilarity (item : SimilarItem) : List SimilarItem → List SimilarItem
  | [] => [item]
  | other :: rest =>
    if other.similarity ≤ item.similarity then item :: other :: rest
    else other :: insertBySimilarity item rest

/-- The specification-side sort (§4.6): descending by similarity with
ties in input (candidate) order. -/
def sortBySimilarityDesc : List SimilarItem → List SimilarItem
  | [] => []
  | item :: rest => insertBySimilarity item (sortBySimilarityDesc rest)

lemma simLE_trans : ∀ a b c : SimilarItem, simLE a b → simLE b c → simLE a c := by
  intro a b c hab hbc
  simp only [simLE, decide_eq_true_iff] at *
  exact le_trans hbc hab

lemma simLE_total : ∀ a b : SimilarItem, simLE a b || simLE b a := by
  intro a b
  simp only [simLE, Bool.or_eq_true, decide_eq_true_iff]
  exact le_total b.similarity a.similarity

lemma insertBySimilarity_append (item : SimilarItem) :
    ∀ l₁ l₂ : List SimilarItem,
      (∀ b ∈ l₁, ¬(b.similarity ≤ item.similarity)) →
      (∀ b ∈ l₂, b.similarity ≤ item.similarity) →
      insertBySimilarity item (l₁ ++ l₂) = l₁ ++ item :: l₂ := by
  intro l₁
  induction l₁ with
  | nil =>
    intro l₂ h1 h2
    cases l₂ with
    | nil => rfl
    | cons hd tl =>
      show insertBySimilarity item (hd :: tl) = item :: hd :: tl
      unfold insertBySimilarity
      rw [if_pos (h2 hd (List.mem_cons_self hd tl))]
  | cons hd tl ih =>
    intro l₂ h1 h2
    show insertBySimilarity item (hd :: (tl ++ l₂)) = hd :: (tl ++ item :: l₂)
    unfold insertBySimilarity
    rw [if_neg (h1 hd (List.mem_cons_self hd tl)),
      ih l₂ (fun b hb => h1 b (List.mem_cons_of_mem hd hb)) h2]

/-- The code's stable sort and the spec's stable descending insertion
sort agree on every input list. -/
lemma mergeSort_simLE_eq_insertionSort :
    ∀ l : List SimilarItem, l.mergeSort simLE = sortBySimilarityDesc l := by
  intro l
  induction l with
  | nil => simp [sortBySimilarityDesc]
  | cons a t ih =>
    obtain ⟨l₁, l₂, h₁, h₂, h₃⟩ := List.mergeSort_cons simLE_trans simLE_total a t
    rw [h₁]
    show l₁ ++ a :: l₂ = insertBySimilarity a (sortBySimilarityDesc t)
    rw [← ih, h₂]
    have hsorted := List.sorted_mergeSort simLE_trans simLE_total (a :: t)
    rw [h₁] at hsorted
    have hl₂ : ∀ b ∈ l₂, b.similarity ≤ a.similarity := by
      intro b hb
      have hrel := (List.pairwise_cons.mp (List.pairwise_append.mp hsorted).2.1).1 b hb
      simpa [simLE, decide_eq_true_iff] using hrel
    have hl₁ : ∀ b ∈ l₁, ¬(b.similarity ≤ a.similarity) := by
      intro b hb
      have hnot := h₃ b hb
      simpa [simLE, Bool.not_eq_true', decide_eq_false_iff_not] using hnot
    exact (insertBySimilarity_append a l₁ l₂ hl₁ hl₂).symm

/-- C6: `findSimilarPoses` returns exactly the candidates whose score
against the target is at or above the threshold, paired with their
scores, sorted descending with equal scores kept in input order (the
spec-side stable insertion sort), truncated to at most `maxResults`
entries; as a pure function it cannot modify its inputs. -/
theorem findSimilarPoses_spec (targetPose : PoseData) (poses : List IdPose)
    (threshold : ℝ) (maxResults : ℕ) :
    findSimilarPoses targetPose poses threshold maxResults =
      (sortBySimilarityDesc ((poses.map fun pose =>
          SimilarItem.mk pose (calculatePoseSimilarity targetPose pose.pose)).filter
        fun item => decide (threshold ≤ item.similarity))).take maxResults ∧
    (findSimilarPoses targetPose poses threshold maxResults).length ≤ maxResults ∧
    List.Pairwise (fun a b => b.similarity ≤ a.similarity)
      (findSimilarPoses targetPose poses threshold maxResults) ∧
    ∀ item ∈ findSimilarPoses targetPose poses threshold maxResults,
      item.pose ∈ poses ∧
      item.similarity = calculatePoseSimilarity targetPose item.pose.pose ∧
      threshold ≤ item.similarity := by
  refine ⟨?_, ?_, ?_, ?_⟩
  · unfold findSimilarPoses
    rw [mergeSort_simLE_eq_insertionSort]
  · unfold findSimilarPoses
    exact List.length_take_le _ _
  · unfold findSimilarPoses
    apply List.Pairwise.sublist (List.take_sublist _ _)
    exact (List.sorted_mergeSort simLE_trans simLE_total _).imp
      fun hr => by simpa [simLE, decide_eq_true_iff] using hr
  · intro item hmem
    unfold findSimilarPoses at hmem
    have hmem2 := List.take_subset _ _ hmem
    rw [List.mem_mergeSort, List.mem_filter] at hmem2
    obtain ⟨hmem3, hcond⟩ := hmem2
    rw [List.mem_map] at hmem3
    obtain ⟨pose, hpose, heq⟩ := hmem3
    refine ⟨?_, ?_, decide_eq_true_iff.mp hcond⟩
    · rw [← heq]; exact hpose
    · rw [← heq]

/-- The key order of the `COCO_KEYPOINTS` object, as enumerated by
`Object.keys` in `fromOpenPoseFormat`. -/
def cocoKeypointNames : List String :=
  ["NOSE", "LEFT_EYE", "RIGHT_EYE", "LEFT_EAR", "RIGHT_EAR", "LEFT_SHOULDER",
   "RIGHT_SHOULDER", "LEFT_ELBOW", "RIGHT_ELBOW", "LEFT_WRIST", "RIGHT_WRIST",
   "LEFT_HIP", "RIGHT_HIP", "LEFT_KNEE", "RIGHT_KNEE", "LEFT_ANKLE", "RIGHT_ANKLE"]

/-- Label assignment of `fromOpenPoseFormat`: positional COCO name, or
the synthesized fallback once the fixed list is exhausted. -/
def keypointLabel (k : Nat) : String :=
  (cocoKeypointNames[k]?).getD ("keypoint_" ++ toString k)

/-- One person entry of the OpenPose interchange envelope. A missing
`pose_keypoints_2d` field is `none`. -/
structure OpenPosePerson where
  person_id : List Int
  pose_keypoints_2d : Option (List ℝ)
  face_keypoints_2d : List ℝ
  hand_left_keypoints_2d : List ℝ
  hand_right_keypoints_2d : List ℝ
  pose_keypoints_3d : List ℝ
  face_keypoints_3d : List ℝ
  hand_left_keypoints_3d : List ℝ
  hand_right_keypoints_3d : List ℝ

/-- The OpenPose interchange envelope. A missing or null `people` array
is `none`. -/
structure OpenPoseData where
  version : ℝ
  people : Option (List OpenPosePerson)

/-- `toPoseOpenPoseFormat` from `poseUtils.ts`: flatten the keypoints
into `[x, y, confidence]` triples inside a fixed single-person
envelope. -/
def toPoseOpenPoseFormat (poseData : PoseData) : OpenPoseData :=
  { version := 1.3,
    people := some [{
      person_id := [-1],
      pose_keypoints_2d := some (poseData.keypoints.flatMap fun kp => [kp.x, kp.y, kp.confidence]),
      face_keypoints_2d := [],
      hand_left_keypoints_2d := [],
      hand_right_keypoints_2d := [],
      pose_keypoints_3d := [],
      face_keypoints_3d := [],
      hand_left_keypoints_3d := [],
      hand_right_keypoints_3d := [] }] }

/-- The triple-consuming loop of `fromOpenPoseFormat`
(`for (i = 0; i < length; i += 3)`). On a trailing fragment shorter
than 3 the JavaScript loop reads `undefined` for the missing fields;
those unobservable values are defaulted to 0 here (every claim only
exercises arrays whose length is a multiple of 3). -/
def parseKeypoints : List ℝ → Nat → List Keypoint
  | [], _ => []
  | [x], k => [{ x := x, y := 0, confidence := 0, label := keypointLabel k }]
  | [x, y], k => [{ x := x, y := y, confidence := 0, label := keypointLabel k }]
  | x :: y :: c :: rest, k =>
    { x := x, y := y, confidence := c, label := keypointLabel k } :: parseKeypoints rest (k + 1)

/-- The fixed COCO skeleton connection list built by
`fromOpenPoseFormat`. -/
def cocoSkeletonConnections : List (Nat × Nat) :=
  [(0, 1), (0, 2), (1, 3), (2, 4),
   (5, 6), (5, 7), (7, 9), (6, 8), (8, 10),
   (5, 11), (6, 12), (11, 12),
   (11, 13), (13, 15), (12, 14), (14, 16)]

/-- `fromOpenPoseFormat` from `poseUtils.ts`: take the first person's
flat keypoint array; return `null` when the people array is absent or
empty, or the array is absent or shorter than 17 * 3 = 51 values;
otherwise rebuild a `PoseData` with the default 768x768 frame. -/
def fromOpenPoseFormat (openPoseData : OpenPoseData) : Option PoseData :=
  match openPoseData.people with
  | none => none
  | some [] => none
  | some (person :: _) =>
    match person.pose_keypoints_2d with
    | none => none
    | some poseKeypoints =>
      if poseKeypoints.length < 51 then none
      else
        some { keypoints := parseKeypoints poseKeypoints 0,
               skeleton := cocoSkeletonConnections,
               width := 768, height := 768 }

/-- The rejection condition stated by the specification (§4.8 import):
people array absent or empty, or the first person's flat keypoint array
absent or holding fewer than 17 * 3 = 51 values. -/
def openPoseImportRejects (d : OpenPoseData) : Prop :=
  d.people = none ∨ d.people = some [] ∨
  ∃ person rest, d.people = some (person :: rest) ∧
    (person.pose_keypoints_2d = none ∨
     ∃ arr, person.pose_keypoints_2d = some arr ∧ arr.length < 51)

/-- C9: `fromOpenPoseFormat` is a total function (it never throws) that
returns `none` exactly when the people array is absent or empty, or the
first person's `pose_keypoints_2d` is absent or holds fewer than 51
values; in every other case it returns a non-null `PoseData`. -/
theorem fromOpenPoseFormat_none_iff (d : OpenPoseData) :
    fromOpenPoseFormat d = none ↔ openPoseImportRejects d := by
  unfold fromOpenPoseFormat openPoseImportRejects
  cases hp : d.people with
  | none => simp
  | some people =>
    cases people with
    | nil => simp
    | cons person rest =>
      cases hk : person.pose_keypoints_2d with
      | none => simp [hk]
      | some arr =>
        by_cases hlen : arr.length < 51
        · simp [hk, hlen]
        · simp [hk, hlen]

lemma flatTriples_length (l : List Keypoint) :
    (l.flatMap fun kp => [kp.x, kp.y, kp.confidence]).length = 3 * l.length := by
  induction l with
  | nil => rfl
  | cons kp t ih =>
    simp only [List.flatMap_cons, List.length_append, ih, List.length_cons]
    simp
    ring

lemma parseKeypoints_proj (l : List Keypoint) :
    ∀ k, (parseKeypoints (l.flatMap fun kp => [kp.x, kp.y, kp.confidence]) k).map
        (fun kp => (kp.x, kp.y, kp.confidence)) =
      l.map fun kp => (kp.x, kp.y, kp.confidence) := by
  induction l with
  | nil => intro k; rfl
  | cons kp t ih =>
    intro k
    rw [List.flatMap_cons]
    show (parseKeypoints (kp.x :: kp.y :: kp.confidence :: (t.flatMap fun kp =>
      [kp.x, kp.y, kp.confidence])) k).map (fun kp => (kp.x, kp.y, kp.confidence)) = _
    rw [parseKeypoints]
    simp only [List.map_cons, ih (k + 1)]

/-- C8: for every 17-keypoint pose, importing the export is non-null
and reproduces, in order, every keypoint's x, y and confidence, while
the reconstructed frame is the 768x768 default rather than the
original dimensions. -/
theorem openPose_roundTrip (p : PoseData) (h17 : p.keypoints.length = 17) :
    (fromOpenPoseFormat (toPoseOpenPoseFormat p)).map
        (fun q => (q.keypoints.map fun kp => (kp.x, kp.y, kp.confidence), q.width, q.height)) =
      some (p.keypoints.map fun kp => (kp.x, kp.y, kp.confidence), (768 : ℝ), (768 : ℝ)) := by
  have hflat : (p.keypoints.flatMap fun kp => [kp.x, kp.y, kp.confidence]).length = 51 := by
    rw [flatTriples_length, h17]
  have hstep : fromOpenPoseFormat (toPoseOpenPoseFormat p) =
      if (p.keypoints.flatMap fun kp => [kp.x, kp.y, kp.confidence]).length < 51
      then none
      else some
        { keypoints := parseKeypoints (p.keypoints.flatMap fun kp => [kp.x, kp.y, kp.confidence]) 0,
          skeleton := cocoSkeletonConnections, width := 768, height := 768 } := rfl
  rw [hstep, hflat, if_neg (by norm_num), Option.map_some']
  show some ((parseKeypoints (p.keypoints.flatMap fun kp => [kp.x, kp.y, kp.confidence]) 0).map
      (fun kp => (kp.x, kp.y, kp.confidence)), (768 : ℝ), (768 : ℝ)) = _
  rw [parseKeypoints_proj p.keypoints 0]

/-- Witness for C8 at the concrete pose `P17`. -/
theorem openPose_roundTrip_witness :
    (fromOpenPoseFormat (toPoseOpenPoseFormat P17)).map
        (fun q => (q.keypoints.map fun kp => (kp.x, kp.y, kp.confidence), q.width, q.height)) =
      some (P17.keypoints.map fun kp => (kp.x, kp.y, kp.confidence), (768 : ℝ), (768 : ℝ)) :=
  openPose_roundTrip P17 rfl

/-- One entry of the variation catalog returned by
`generatePoseVariations`. -/
structure PoseVariation where
  id : String
  title : String
  poseData : PoseData
  transformation : String

/-- `generatePoseVariations` from `poseUtils.ts`: the fixed six-entry
catalog (original, mirrored, 80% scaled, 120% scaled, rotated +15 and
-15 degrees). The mirror step inherits `mirrorPose`'s partiality. As a
pure function it trivially returns identical results on repeated
calls. -/
def generatePoseVariations (poseData : PoseData) : Option (List PoseVariation) :=
  (mirrorPose poseData).map fun mirrored =>
    [{ id := "original", title := "Original", poseData := poseData, transformation := "none" },
     { id := "mirrored", title := "Mirrored", poseData := mirrored, transformation := "mirror" },
     { id := "scaled-small", title := "Scaled 80%",
       poseData := scalePose poseData (poseData.width * 0.8) (poseData.height * 0.8),
       transformation := "scale-0.8" },
     { id := "scaled-large", title := "Scaled 120%",
       poseData := scalePose poseData (poseData.width * 1.2) (poseData.height * 1.2),
       transformation := "scale-1.2" },
     { id := "rotated-15", title := "Rotated 15°", poseData := rotatePose poseData 15,
       transformation := "rotate-15" },
     { id := "rotated-minus-15", title := "Rotated -15°", poseData := rotatePose poseData (-15),
       transformation := "rotate--15" }]

/-- C10 counterexample: on a concrete pose the six identifiers are
`original`, `mirrored`, `scaled-small`, `scaled-large`, `rotated-15`
and `rotated-minus-15`; the claimed sixth identifier `rotated--15` does
not occur (the string `rotate--15` is the sixth entry's transformation
tag, not its identifier). -/
theorem generatePoseVariations_id_mismatch :
    ((generatePoseVariations PA).map fun l => l.map PoseVariation.id) ≠
      some ["original", "mirrored", "scaled-small", "scaled-large", "rotated-15",
        "rotated--15"] := by
  intro hcontra
  rw [show ((generatePoseVariations PA).map fun l => l.map PoseVariation.id) =
      some ["original", "mirrored", "scaled-small", "scaled-large", "rotated-15",
        "rotated-minus-15"] from rfl] at hcontra
  exact absurd (Option.some.inj hcontra) (by decide)

/-- Amended C10: for every source pose in the 17-point COCO layout (the
domain on which the mirror step is defined), `generatePoseVariations`
deterministically returns exactly six entries in fixed order with
identifiers `original`, `mirrored`, `scaled-small`, `scaled-large`,
`rotated-15` and `rotated-minus-15`, each carrying its title and
transformation tag (the sixth entry's tag is `rotate--15`), holding
respectively the source pose, its mirror, the 80% and 120% scalings,
and the +15 and -15 degree rotations; determinism is inherent since the
generator is a pure function. -/
theorem generatePoseVariations_catalog (p : PoseData) (h17 : p.keypoints.length = 17) :
    generatePoseVariations p =
      some [{ id := "original", title := "Original", poseData := p, transformation := "none" },
        { id := "mirrored", title := "Mirrored", poseData := mirrorPoseSpec p,
          transformation := "mirror" },
        { id := "scaled-small", title := "Scaled 80%",
          poseData := scalePose p (p.width * 0.8) (p.height * 0.8),
          transformation := "scale-0.8" },
        { id := "scaled-large", title := "Scaled 120%",
          poseData := scalePose p (p.width * 1.2) (p.height * 1.2),
          transformation := "scale-1.2" },
        { id := "rotated-15", title := "Rotated 15°", poseData := rotatePose p 15,
          transformation := "rotate-15" },
        { id := "rotated-minus-15", title := "Rotated -15°", poseData := rotatePose p (-15),
          transformation := "rotate--15" }] := by
  unfold generatePoseVariations
  rw [mirrorPose_eq_spec p h17, Option.map_some']

/-- Witness for the amended C10 at the concrete pose `P17`. -/
theorem generatePoseVariations_catalog_witness :
    generatePoseVariations P17 =
      some [{ id := "original", title := "Original", poseData := P17, transformation := "none" },
        { id := "mirrored", title := "Mirrored", poseData := mirrorPoseSpec P17,
          transformation := "mirror" },
        { id := "scaled-small", title := "Scaled 80%",
          poseData := scalePose P17 (P17.width * 0.8) (P17.height * 0.8),
          transformation := "scale-0.8" },
        { id := "scaled-large", title := "Scaled 120%",
          poseData := scalePose P17 (P17.width * 1.2) (P17.height * 1.2),
          transformation := "scale-1.2" },
        { id := "rotated-15", title := "Rotated 15°", poseData := rotatePose P17 15,
          transformation := "rotate-15" },
        { id := "rotated-minus-15", title := "Rotated -15°", poseData := rotatePose P17 (-15),
          transformation := "rotate--15" }] :=
  generatePoseVariations_catalog P17 rfl
